import Mathlib

/-!
Verification of the two battle-system plugin scripts of this repository.

Part 1 embeds `AIManager.setRandomTarget` from
`Battle System Plugins/Enemy AIs/KOFFIN_TargetRateFIx.js`.
Part 2 embeds the `Window_ActorInfo` drawing routines from
`Battle System Plugins/Menu and UI/KOFFIN_InBattleStatus.js`.

JavaScript numbers are modelled by exact rationals (`ℚ`); the claims under
study are explicitly about exact arithmetic, with floating-point edge cases
excluded.  Host-engine objects (battlers, actors, states) are modelled as
structures carrying exactly the fields the scripts read.
-/

namespace TargetRateFix

/-- A battle target as read by `setRandomTarget`: its `tgr` property (target
rate), which may be `undefined` in the engine (modelled by `none`), and its
engine index `target.index()`. -/
structure Battler where
  tgr : Option ℚ
  index : ℕ
deriving DecidableEq, Repr

/-- The weight taken for one target, from line 20 of the source:
`var weight = target.tgr || 1.0;`.  JavaScript `||` substitutes `1.0` for any
falsy value of `tgr`: for `undefined` (`none` here) and also for `0`. -/
def jsWeight (t : Battler) : ℚ :=
  match t.tgr with
  | none => 1
  | some w => if w = 0 then 1 else w

/-- The total weight accumulated by the first loop of `setRandomTarget`
(lines 18-23): the sum of the per-target weights. -/
def totalWeight (group : List Battler) : ℚ :=
  (group.map jsWeight).sum

/-- The accumulation loop of `setRandomTarget` (lines 29-35): walk the group
adding each weight to `weightSum`, and on the first target with
`randomValue <= weightSum` return `some` of that target's engine index
(the argument passed to `this.action().setTarget`).  `none` means the loop
completed without selecting anyone. -/
def selectLoop : List Battler → ℚ → ℚ → Option ℕ
  | [], _, _ => none
  | t :: rest, r, acc =>
    if r ≤ acc + jsWeight t then some t.index
    else selectLoop rest r (acc + jsWeight t)

/-- Which code path of `setRandomTarget` set the action's target.  Both
`picked` and `fallback` denote a call `this.action().setTarget(i)`; the
constructor records whether the loop (line 32) or the trailing fallback
(line 38) made the call, and `noTarget` is the early return of line 11. -/
inductive Outcome where
  | noTarget : Outcome
  | picked (target : ℕ) : Outcome
  | fallback (target : ℕ) : Outcome
deriving DecidableEq, Repr

/-- `AIManager.setRandomTarget(group)` with the draw
`randomValue = Math.random() * totalWeight` abstracted into the parameter
`r`.  Lines 10-39 of the source: early return on an empty group, otherwise
run the accumulation loop, and fall back to `group[0].index()` if the loop
selected nobody. -/
def setRandomTarget (group : List Battler) (r : ℚ) : Outcome :=
  if group.length ≤ 0 then Outcome.noTarget
  else
    match selectLoop group r 0 with
    | some idx => Outcome.picked idx
    | none =>
      match group with
      | [] => Outcome.noTarget
      | g0 :: _ => Outcome.fallback g0.index

/-- Effect of an outcome on the action's stored target: `setTarget`
overwrites it, the early return leaves it unchanged. -/
def applyOutcome (prev : Option ℕ) (o : Outcome) : Option ℕ :=
  match o with
  | Outcome.noTarget => prev
  | Outcome.picked i => some i
  | Outcome.fallback i => some i

/-- When the draw is at most the grand total, the accumulation loop selects
the first target (in list order) whose running weight sum reaches the draw. -/
theorem selectLoop_first (r : ℚ) (group : List Battler) :
    ∀ acc : ℚ, group ≠ [] → r ≤ acc + (group.map jsWeight).sum →
    ∃ i, ∃ hi : i < group.length,
      selectLoop group r acc = some ((group.get ⟨i, hi⟩).index) ∧
      r ≤ acc + ((group.map jsWeight).take (i + 1)).sum ∧
      ∀ j < i, acc + ((group.map jsWeight).take (j + 1)).sum < r := by
  induction group with
  | nil => intro acc h _; exact absurd rfl h
  | cons t rest ih =>
    intro acc _ hle
    by_cases hr : r ≤ acc + jsWeight t
    · refine ⟨0, Nat.succ_pos _, ?_, ?_, ?_⟩
      · simp [selectLoop, hr]
      · simpa using hr
      · intro j hj; exact absurd hj (Nat.not_lt_zero j)
    · have hstep : selectLoop (t :: rest) r acc = selectLoop rest r (acc + jsWeight t) := by
        simp [selectLoop, hr]
      have hrest : rest ≠ [] := by
        rintro rfl
        simp only [List.map_cons, List.map_nil, List.sum_cons, List.sum_nil, add_zero] at hle
        exact hr hle
      have hle' : r ≤ (acc + jsWeight t) + (rest.map jsWeight).sum := by
        simp only [List.map_cons, List.sum_cons] at hle
        linarith
      obtain ⟨i, hi, hsel, hge, hltj⟩ := ih (acc + jsWeight t) hrest hle'
      refine ⟨i + 1, Nat.succ_lt_succ hi, ?_, ?_, ?_⟩
      · rw [hstep, hsel]
        rfl
      · simp only [List.map_cons, List.take_succ_cons, List.sum_cons]
        linarith
      · intro j hj
        cases j with
        | zero =>
          simpa using not_le.mp hr
        | succ j' =>
          have h := hltj j' (Nat.lt_of_succ_lt_succ hj)
          simp only [List.map_cons, List.take_succ_cons, List.sum_cons]
          linarith

/-- A non-empty group has positive length. -/
theorem length_not_le_zero {group : List Battler} (hne : group ≠ []) :
    ¬ group.length ≤ 0 := by
  simp [Nat.le_zero, List.length_eq_zero, hne]

/-- C1: for a non-empty group and a draw `r` with `0 ≤ r < totalWeight`,
`setRandomTarget` sets the action's target to the engine index of the first
target in list order whose cumulative (prefix-sum) weight is greater than or
equal to `r`. -/
theorem setRandomTarget_picks_first_cumulative (group : List Battler) (r : ℚ)
    (hne : group ≠ []) (h0 : 0 ≤ r) (hlt : r < totalWeight group) :
    ∃ i, ∃ hi : i < group.length,
      setRandomTarget group r = Outcome.picked ((group.get ⟨i, hi⟩).index) ∧
      r ≤ ((group.map jsWeight).take (i + 1)).sum ∧
      ∀ j < i, ((group.map jsWeight).take (j + 1)).sum < r := by
  obtain ⟨i, hi, hsel, hge, hltj⟩ :=
    selectLoop_first r group 0 hne (by simpa [totalWeight] using hlt.le)
  refine ⟨i, hi, ?_, by simpa using hge, fun j hj => by simpa using hltj j hj⟩
  simp [setRandomTarget, length_not_le_zero hne, hsel]

/-- C1 witness: group `[tgr 2 (index 3), tgr undefined (index 9)]`, draw
`r = 5/2`.  Prefix sums are `2` and `3`, so the second target (index `9`) is
the first whose cumulative weight reaches `5/2`. -/
theorem setRandomTarget_picks_first_cumulative_witness :
    ∃ i, ∃ hi : i < ([⟨some 2, 3⟩, ⟨none, 9⟩] : List Battler).length,
      setRandomTarget [⟨some 2, 3⟩, ⟨none, 9⟩] (5/2) =
        Outcome.picked ((([⟨some 2, 3⟩, ⟨none, 9⟩] : List Battler).get ⟨i, hi⟩).index) ∧
      (5/2 : ℚ) ≤ ((([⟨some 2, 3⟩, ⟨none, 9⟩] : List Battler).map jsWeight).take (i + 1)).sum ∧
      ∀ j < i, ((([⟨some 2, 3⟩, ⟨none, 9⟩] : List Battler).map jsWeight).take (j + 1)).sum < 5/2 :=
  setRandomTarget_picks_first_cumulative [⟨some 2, 3⟩, ⟨none, 9⟩] (5/2)
    (by decide) (by norm_num) (by norm_num [totalWeight, jsWeight])

/-- C2: under the claim's preconditions (non-empty group, non-negative
weights, positive total, `0 ≤ r < totalWeight`), the accumulation loop always
selects a target in exact arithmetic: the result comes from the loop, so the
trailing fallback branch is never taken. -/
theorem setRandomTarget_loop_always_selects (group : List Battler) (r : ℚ)
    (hne : group ≠ []) (hw : ∀ t ∈ group, 0 ≤ jsWeight t)
    (htot : 0 < totalWeight group) (h0 : 0 ≤ r) (hlt : r < totalWeight group) :
    ∃ idx, selectLoop group r 0 = some idx ∧
      setRandomTarget group r = Outcome.picked idx := by
  obtain ⟨i, hi, hsel, _, _⟩ :=
    selectLoop_first r group 0 hne (by simpa [totalWeight] using hlt.le)
  exact ⟨_, hsel, by simp [setRandomTarget, length_not_le_zero hne, hsel]⟩

/-- C2 witness: a one-target group with default weight and draw `1/2`. -/
theorem setRandomTarget_loop_always_selects_witness :
    ∃ idx, selectLoop [(⟨none, 7⟩ : Battler)] (1/2) 0 = some idx ∧
      setRandomTarget [(⟨none, 7⟩ : Battler)] (1/2) = Outcome.picked idx :=
  setRandomTarget_loop_always_selects [⟨none, 7⟩] (1/2)
    (by decide) (by decide) (by norm_num [totalWeight, jsWeight])
    (by norm_num) (by norm_num [totalWeight, jsWeight])

/-- C3: if the accumulation loop completes without selecting any target, the
fallback of line 38 sets the action's target to the engine index of the first
target of the group. -/
theorem setRandomTarget_fallback_to_first (g0 : Battler) (rest : List Battler) (r : ℚ)
    (hmiss : selectLoop (g0 :: rest) r 0 = none) :
    setRandomTarget (g0 :: rest) r = Outcome.fallback g0.index := by
  simp [setRandomTarget, hmiss]

/-- C3 witness: one target of weight `1` and a draw `r = 2` beyond the total,
so the loop selects nobody and the fallback targets `group[0]` (index 5). -/
theorem setRandomTarget_fallback_to_first_witness :
    setRandomTarget [(⟨some 1, 5⟩ : Battler)] 2 = Outcome.fallback (5 : ℕ) :=
  setRandomTarget_fallback_to_first ⟨some 1, 5⟩ [] 2 (by norm_num [selectLoop, jsWeight])

/-- C4: a target whose `tgr` is `undefined` contributes exactly `1.0`, both
to the total weight and at its step of the accumulation walk. -/
theorem undefined_tgr_weight_one (t : Battler) (rest : List Battler) (r acc : ℚ)
    (ht : t.tgr = none) :
    jsWeight t = 1 ∧
    totalWeight (t :: rest) = 1 + totalWeight rest ∧
    selectLoop (t :: rest) r acc =
      (if r ≤ acc + 1 then some t.index else selectLoop rest r (acc + 1)) := by
  have hw : jsWeight t = 1 := by simp [jsWeight, ht]
  refine ⟨hw, ?_, ?_⟩
  · simp [totalWeight, hw]
  · simp [selectLoop, hw]

/-- C4 witness: instantiation at a concrete undefined-`tgr` target. -/
theorem undefined_tgr_weight_one_witness :
    jsWeight (⟨none, 4⟩ : Battler) = 1 ∧
    totalWeight [⟨none, 4⟩, ⟨some 2, 1⟩] = 1 + totalWeight [⟨some 2, 1⟩] ∧
    selectLoop [⟨none, 4⟩, ⟨some 2, 1⟩] (3/2) 0 =
      (if (3/2 : ℚ) ≤ 0 + 1 then some 4 else selectLoop [⟨some 2, 1⟩] (3/2) (0 + 1)) :=
  undefined_tgr_weight_one ⟨none, 4⟩ [⟨some 2, 1⟩] (3/2) 0 rfl

/-- C5: a target whose `tgr` is exactly `0` is treated by the falsy-default
coercion `target.tgr || 1.0` like an undefined one: its weight is `1.0`, so
it stays selectable (the walk picks it whenever the draw lands in its
unit-width slot) instead of being excluded. -/
theorem zero_tgr_weight_one (t : Battler) (rest : List Battler) (r acc : ℚ)
    (ht : t.tgr = some 0) :
    jsWeight t = 1 ∧
    jsWeight t = jsWeight ⟨none, t.index⟩ ∧
    totalWeight (t :: rest) = 1 + totalWeight rest ∧
    selectLoop (t :: rest) r acc =
      (if r ≤ acc + 1 then some t.index else selectLoop rest r (acc + 1)) := by
  have hw : jsWeight t = 1 := by simp [jsWeight, ht]
  refine ⟨hw, by rw [hw]; simp [jsWeight], ?_, ?_⟩
  · simp [totalWeight, hw]
  · simp [selectLoop, hw]

/-- C5 witness: instantiation at a concrete `tgr = 0` target. -/
theorem zero_tgr_weight_one_witness :
    jsWeight (⟨some 0, 2⟩ : Battler) = 1 ∧
    jsWeight (⟨some 0, 2⟩ : Battler) = jsWeight ⟨none, 2⟩ ∧
    totalWeight [⟨some 0, 2⟩] = 1 + totalWeight [] ∧
    selectLoop [(⟨some 0, 2⟩ : Battler)] (1/2) 0 =
      (if (1/2 : ℚ) ≤ 0 + 1 then some 2 else selectLoop [] (1/2) (0 + 1)) :=
  zero_tgr_weight_one ⟨some 0, 2⟩ [] (1/2) 0 rfl

/-- C9: on an empty group `setRandomTarget` returns at line 11 without
calling `setTarget`, so the action's stored target is unchanged. -/
theorem empty_group_no_target (group : List Battler) (r : ℚ)
    (hlen : group.length = 0) :
    setRandomTarget group r = Outcome.noTarget ∧
    ∀ prev, applyOutcome prev (setRandomTarget group r) = prev := by
  have hg : group = [] := List.length_eq_zero.mp hlen
  subst hg
  exact ⟨rfl, fun prev => rfl⟩

/-- C9 witness: the empty group with draw `0`. -/
theorem empty_group_no_target_witness :
    setRandomTarget ([] : List Battler) 0 = Outcome.noTarget ∧
    ∀ prev, applyOutcome prev (setRandomTarget ([] : List Battler) 0) = prev :=
  empty_group_no_target [] 0 rfl

end TargetRateFix

namespace InBattleStatus

/-! Embedding of `KOFFIN_InBattleStatus.js`.  The host engine's
`measureTextWidth` is a bitmap text metric and is abstracted as a parameter
`measure : String → ℚ`; every other quantity the script reads is a field of
the structures below. -/

/-- Trait kind constants `Game_BattlerBase.TRAIT_PARAM` / `TRAIT_XPARAM` /
`TRAIT_SPARAM` compared against `trait.code` in `convertTraitEffect`; any
other code falls through with empty effect text. -/
inductive TraitCode where
  | param : TraitCode
  | xparam : TraitCode
  | sparam : TraitCode
  | other : TraitCode
deriving DecidableEq, Repr

/-- A trait record of a state, with the fields `convertTraitEffect` reads. -/
structure Trait where
  code : TraitCode
  dataId : ℕ
  value : ℚ
deriving DecidableEq, Repr

/-- A state record, with the fields the script reads: the `note` text box,
display name, icon, id, auto-removal timing, speed, removal-by-damage flag
and trait list. -/
structure StateData where
  note : String
  name : String
  iconIndex : ℤ
  id : ℤ
  autoRemovalTiming : ℤ
  speed : ℤ
  removeByDamage : Bool
  traits : List Trait
deriving DecidableEq, Repr

/-- Characters matched by `\s` in a JavaScript regular expression (ASCII
whitespace plus the Unicode space separators, line separators and BOM). -/
def isJsWs (c : Char) : Bool :=
  c.toNat = 32 || c.toNat = 9 || c.toNat = 10 || c.toNat = 11 || c.toNat = 12 ||
  c.toNat = 13 || c.toNat = 160 || c.toNat = 0x1680 ||
  (0x2000 ≤ c.toNat && c.toNat ≤ 0x200a) ||
  c.toNat = 0x2028 || c.toNat = 0x2029 || c.toNat = 0x202f ||
  c.toNat = 0x205f || c.toNat = 0x3000 || c.toNat = 0xfeff

/-- Characters matched by `.` in a JavaScript regular expression: everything
except the four line terminators. -/
def jsDotMatches (c : Char) : Bool :=
  !(c.toNat = 10 || c.toNat = 13 || c.toNat = 0x2028 || c.toNat = 0x2029)

/-- Lower-cased character list, for the `/i` (case-insensitive) regex flag. -/
def toLowerList (cs : List Char) : List Char :=
  cs.map Char.toLower

/-- Whether `needle` is an initial segment of `hay`. -/
def charsStart : List Char → List Char → Bool
  | [], _ => true
  | _ :: _, [] => false
  | c :: cs, d :: ds => c == d && charsStart cs ds

/-- Whether `needle` occurs contiguously anywhere in `hay`. -/
def charsContain (needle : List Char) : List Char → Bool
  | [] => charsStart needle []
  | c :: rest => charsStart needle (c :: rest) || charsContain needle rest

/-- The lazy group `(.+?)>` of the `<Desc:...>` regex: capture at least one
`.`-matchable character, extending only until the first `>` that follows the
capture. -/
def lazyCap : List Char → List Char → Option (List Char)
  | [], _ => none
  | c :: rest, acc =>
    if jsDotMatches c then
      match rest with
      | '>' :: _ => some (acc ++ [c])
      | _ => lazyCap rest (acc ++ [c])
    else none

/-- The tail `\s*(.+?)>` of the `<Desc:...>` regex: the greedy `\s*` consumes
as much whitespace as possible first and gives characters back one at a time
when the rest of the pattern fails. -/
def matchAfterDesc : List Char → Option (List Char)
  | [] => none
  | c :: rest =>
    if isJsWs c then
      match matchAfterDesc rest with
      | some cap => some cap
      | none => lazyCap (c :: rest) []
    else lazyCap (c :: rest) []

/-- Leftmost match of `/<Desc:\s*(.+?)>/i` (line 120 of the source): scan
positions left to right; where the literal `<Desc:` matches
case-insensitively, try the rest of the pattern, else move on. -/
def findDescFrom : List Char → Option (List Char)
  | [] => none
  | c :: rest =>
    if charsStart ("<desc:".toList) (toLowerList (c :: rest)) then
      match matchAfterDesc ((c :: rest).drop 6) with
      | some cap => some cap
      | none => findDescFrom rest
    else findDescFrom rest

/-- Decimal value of a digit run, as `parseInt` reads it. -/
def digitsToNat (ds : List Char) : ℕ :=
  ds.foldl (fun n c => 10 * n + (c.toNat - 48)) 0

/-- The tail `\s*(\d+)>` of the `<StatusIcon:...>` regex: maximal whitespace,
then a non-empty digit run, then a literal `>` (backtracking cannot produce
any other split here). -/
def matchIconAt (cs : List Char) : Option ℤ :=
  let afterWs := cs.dropWhile isJsWs
  let digits := afterWs.takeWhile Char.isDigit
  if digits.isEmpty then none
  else
    match afterWs.drop digits.length with
    | '>' :: _ => some (digitsToNat digits : ℤ)
    | _ => none

/-- Leftmost match of `/<StatusIcon:\s*(\d+)>/i` (line 161 of the source). -/
def findIconFrom : List Char → Option ℤ
  | [] => none
  | c :: rest =>
    if charsStart ("<statusicon:".toList) (toLowerList (c :: rest)) then
      match matchIconAt ((c :: rest).drop 12) with
      | some v => some v
      | none => findIconFrom rest
    else findIconFrom rest

/-- `getStateIconIndex` (lines 160-166): the `<StatusIcon:id>` notetag
overrides the state's own `iconIndex`. -/
def getStateIconIndex (state : StateData) : ℤ :=
  match findIconFrom state.note.toList with
  | some v => v
  | none => state.iconIndex

/-- `isStateHiddenInMenu` (lines 53-56): a state is hidden when its note is
truthy (non-empty) and contains `<HideInStatus>` case-insensitively.  The
`!state` guard of line 54 is absorbed by taking a present `StateData`. -/
def isStateHiddenInMenu (st : StateData) : Bool :=
  (st.note != "") && charsContain ("<hideinstatus>".toList) (toLowerList st.note.toList)

/-- The predicate of the `filter` callback in `filterStates` (line 220):
`state && !isStateHiddenInMenu(state)`. -/
def stateKept : Option StateData → Bool
  | none => false
  | some st => !(isStateHiddenInMenu st)

/-- `Window_ActorInfo.prototype.filterStates` (lines 217-222): `[]` for a
null list, otherwise the sublist of non-null, non-hidden states. -/
def filterStates : Option (List (Option StateData)) → List (Option StateData)
  | none => []
  | some l => l.filter stateKept

/-- `convertRateString` (lines 59-64).  Its argument is always
`state.speed / 100` with integral `speed`, so `rate * 100` is an integer and
JavaScript's number-to-string agrees with printing that integer. -/
def convertRateString (rate : ℚ) : String :=
  if rate = 0 then ""
  else
    let rateDisplay := (if (rate * 100).den = 1 then toString (rate * 100).num
                        else toString (rate * 100)) ++ "% RATE"
    (if rate > 0 then "+" ++ rateDisplay else rateDisplay) ++ " "

/-- The short stat names of the PARAM trait branch (line 82). -/
def paramShortNames : List String :=
  ["HP", "MP", "ATK", "DEF", "MAT", "MDF", "AGI", "LUK"]

/-- The short stat names of the XPARAM trait branch (line 93). -/
def xparamShortNames : List String :=
  ["HIT", "EVA", "CRI", "CEV", "MEV", "MRF", "CNT", "HRG", "MRG", "TRG"]

/-- `convertTraitEffect` (lines 74-115).  `Math.round` on an exact rational
is `round` (round half towards positive infinity, as in JavaScript). -/
def convertTraitEffect (t : Trait) : String :=
  match t.code with
  | TraitCode.param =>
    if t.dataId < paramShortNames.length then
      let pc := round ((t.value - 1) * 100)
      if pc ≠ 0 then
        (if pc > 0 then "+" else "") ++ toString pc ++ "% " ++
          paramShortNames.getD t.dataId ""
      else ""
    else ""
  | TraitCode.xparam =>
    if t.dataId < xparamShortNames.length then
      let pc := round (t.value * 100)
      if pc ≠ 0 then
        (if pc > 0 then "+" else "") ++ toString pc ++ "% " ++
          xparamShortNames.getD t.dataId ""
      else ""
    else ""
  | TraitCode.sparam =>
    if t.dataId = 0 then
      let pc := round ((t.value - 1) * 100)
      if pc ≠ 0 then
        (if pc > 0 then "+" else "") ++ toString pc ++ "% ELEMENT"
      else ""
    else ""
  | TraitCode.other => ""

/-- `getStateDescription` (lines 118-157).  The `actor` and `stateId`
parameters of the source are unused by its body and are dropped here. -/
def getStateDescription (state : StateData) : String :=
  match findDescFrom state.note.toList with
  | some cap => String.mk cap
  | none =>
    let descs := (state.traits.map convertTraitEffect).filter (fun s => s != "")
    let descs := descs ++
      (if state.speed > 0 then [convertRateString ((state.speed : ℚ) / 100)] else [])
    let descs := descs ++ (if state.autoRemovalTiming > 0 then [""] else [])
    let descs := descs ++ (if state.removeByDamage then [""] else [])
    let descs := if descs = [] then ["NO EFFECTS"] else descs
    String.intercalate " " descs

/-- An actor as read by `Window_ActorInfo`: the display fields and the host
accessors the script calls (`isStateAffected`, `stateTurns`, `states`,
`paramBase`, `paramPlus`, `paramRate`). -/
structure Actor where
  name : String
  equips : List (Option String)
  level : ℚ
  atk : ℚ
  defParam : ℚ
  agi : ℚ
  luk : ℚ
  hit : ℚ
  eva : ℚ
  paramBase : ℕ → ℚ
  paramPlus : ℕ → ℚ
  paramRate : ℕ → ℚ
  isStateAffected : ℤ → Bool
  stateTurns : ℤ → Option ℤ
  states : List (Option StateData)

/-- Plugin parameter `windowWidth` (line 36). -/
def windowWidth : ℤ := 480

/-- `Window_ActorInfo.prototype.standardPadding` (lines 609-611). -/
def standardPadding : ℤ := 8

/-- `Window_ActorInfo.prototype.contentsWidth` (lines 595-597). -/
def contentsWidth : ℤ := windowWidth - standardPadding * 2

/-- Text handed to a draw call: a literal string, a stringified number, or a
JavaScript `+`-concatenation of the two. -/
inductive TextVal where
  | lit (s : String) : TextVal
  | num (v : ℚ) : TextVal
  | cat (a b : TextVal) : TextVal
deriving DecidableEq, Repr

/-- A drawing primitive issued into the window contents bitmap.  Font and
color changes are state changes, not drawing, and are not recorded. -/
inductive DrawOp where
  | clearAll : DrawOp
  | text (t : TextVal) (x y w h : ℤ) : DrawOp
  | icon (idx : ℤ) (x y : ℤ) : DrawOp
deriving DecidableEq, Repr

/-- `getBaseStat` (lines 320-322). -/
def getBaseStat (a : Actor) (paramId : ℕ) : ℚ :=
  a.paramBase paramId + a.paramPlus paramId

/-- `convertMagicParamRate` (lines 327-338). -/
def convertMagicParamRate (rawRate : ℚ) : ℚ :=
  if rawRate > 1 then
    if |rawRate - 4| < 1/1000 then 1.15
    else if |rawRate - 6| < 1/1000 then 1.30
    else if |rawRate - 8| < 1/1000 then 1.50
    else 1
  else if rawRate < 1 then
    if |rawRate - 1/2| < 1/1000 then 0.85
    else if |rawRate - 1/4| < 1/1000 then 0.70
    else if |rawRate - 1/8| < 1/1000 then 0.50
    else 1
  else 1

/-- `formatStat` (lines 400-404), reduced to the drawn text: the value plus
an arrow when the stat differs from its base.  `LV` is formatted with an
`undefined` base, for which both JavaScript comparisons are false. -/
def formatStat (label : String) (stat : ℚ) (base : Option ℚ) : String × TextVal :=
  let arrow :=
    match base with
    | none => ""
    | some b => if stat < b then "↓" else if stat > b then "↑" else ""
  (label, if arrow = "" then TextVal.num stat
          else TextVal.cat (TextVal.num stat) (TextVal.lit (" " ++ arrow)))

/-- `formatRateStat` (lines 406-408): `Math.round(rate * 100) + "%"`. -/
def formatRateStat (label : String) (rate : ℚ) : String × TextVal :=
  (label, TextVal.cat (TextVal.num (round (rate * 100) : ℤ)) (TextVal.lit "%"))

/-- `drawHeader` (lines 343-374): early return with no actor, else the name
and the weapon/charm fields (`equips[0]`/`equips[1]`, `"NONE"` when absent). -/
def drawHeader : Option Actor → List DrawOp
  | none => []
  | some a =>
    let weapon := (a.equips.getD 0 none).getD "NONE"
    let charm := (a.equips.getD 1 none).getD "NONE"
    [DrawOp.text (TextVal.lit a.name) 8 8 (contentsWidth - 16) 28,
     DrawOp.text (TextVal.lit "WEAPON: ") 132 8 100 22,
     DrawOp.text (TextVal.lit weapon) 192 8 85 22,
     DrawOp.text (TextVal.lit "CHARM: ") 282 8 80 22,
     DrawOp.text (TextVal.lit charm) 337 8 120 22]

/-- `drawStatsSection` (lines 379-469): early return with no actor, else the
two stat lines.  Line one starts at `x = 20` advancing 85 per stat; line two
starts at 95 or 145 depending on evasion, advancing 125.  The computed
`displayedAtk`/`displayedDef` of lines 389-390 are dead locals (the loop
draws `actor.atk`/`actor.def` directly) and leave no trace in the output. -/
def drawStatsSection : Option Actor → List DrawOp
  | none => []
  | some a =>
    let line1 := [formatStat "LV: " a.level none,
                  formatStat "ATK: " a.atk (some (getBaseStat a 2)),
                  formatStat "DEF: " a.defParam (some (getBaseStat a 3)),
                  formatStat "SPD: " a.agi (some (getBaseStat a 6)),
                  formatStat "LUK: " a.luk (some (getBaseStat a 7))]
    let line1Ops := (line1.enum.map (fun p =>
      [DrawOp.text (TextVal.lit p.2.1) (20 + 85 * (p.1 : ℤ)) 30 40 26,
       DrawOp.text p.2.2 (20 + 85 * (p.1 : ℤ) + 35) 30 60 26])).foldr (· ++ ·) []
    let line2 := formatRateStat "HIT RATE: " a.hit ::
      (if a.eva > 0 then [formatRateStat "EVASION: " a.eva] else [])
    let sx : ℤ := if a.eva > 0 then 95 else 145
    let line2Ops := (line2.enum.map (fun p =>
      [DrawOp.text (TextVal.lit p.2.1) (sx + 125 * (p.1 : ℤ)) 56 90 26,
       DrawOp.text p.2.2 (sx + 125 * (p.1 : ℤ) + 85) 56 60 26])).foldr (· ++ ·) []
    line1Ops ++ line2Ops

/-- The for-loop of lines 561-570 of `drawState`, with the running state
`lines` / `currentLine` explicit.  A word whose extended line measures over
`maxWidth` flushes the current line (breaking out once three lines exist);
after the loop a non-empty current line is flushed if fewer than three lines
were emitted (lines 572-574). -/
def wrapLoop (measure : String → ℚ) (maxWidth : ℚ) :
    List String → List String → String → List String
  | [], lines, currentLine =>
    if currentLine ≠ "" ∧ lines.length < 3 then lines ++ [currentLine] else lines
  | word :: rest, lines, currentLine =>
    if maxWidth < measure (currentLine ++ (if currentLine ≠ "" then " " else "") ++ word) then
      if 3 ≤ (lines ++ [currentLine]).length then lines ++ [currentLine]
      else wrapLoop measure maxWidth rest (lines ++ [currentLine]) word
    else wrapLoop measure maxWidth rest lines
      (currentLine ++ (if currentLine ≠ "" then " " else "") ++ word)

/-- The `lines` array built by `drawState` for a description: split on single
spaces (`description.split(' ')`), then run the wrapping loop. -/
def wrapDescription (measure : String → ℚ) (maxWidth : ℚ) (description : String) :
    List String :=
  wrapLoop measure maxWidth (description.splitOn " ") [] ""

/-- Modelled from the claim's words, for comparison with `wrapDescription`:
unbounded greedy word wrap.  Each next word extends the current line when the
extended line's measure does not exceed `maxWidth`, and otherwise the current
line is emitted and the word starts a new line; a final non-empty line is
emitted at the end. -/
def greedyWrap (measure : String → ℚ) (maxWidth : ℚ) :
    List String → String → List String
  | [], cur => if cur ≠ "" then [cur] else []
  | word :: rest, cur =>
    if maxWidth < measure (cur ++ (if cur ≠ "" then " " else "") ++ word) then
      cur :: greedyWrap measure maxWidth rest word
    else greedyWrap measure maxWidth rest (cur ++ (if cur ≠ "" then " " else "") ++ word)

/-- `drawState` (lines 520-590): null guard, icon, name with optional turn
count, then up to three wrapped description lines (only when the description
is non-empty, per the `if (description)` of line 551).  The drawing loop of
lines 580-583 runs `Math.min(lines.length, 3)` times. -/
def drawState (measure : String → ℚ) (actor : Actor) (state : Option StateData)
    (x y width : ℤ) : List DrawOp :=
  match state with
  | none => []
  | some st =>
    let iconSize : ℤ := 32
    let turnText :=
      if actor.isStateAffected st.id ∧ st.autoRemovalTiming > 0 then
        let turns := (actor.stateTurns st.id).getD 0
        if turns > 0 then " (" ++ toString turns ++ " TURNS)" else ""
      else ""
    let nameOp := DrawOp.text (TextVal.lit (st.name ++ turnText))
      (x + iconSize + 4) y (width - iconSize - 4) 18
    let description := getStateDescription st
    let descOps :=
      if description = "" then []
      else
        let maxWidth := width - iconSize - 8
        let lines := wrapDescription measure (maxWidth : ℚ) description
        (List.range (min lines.length 3)).map (fun l =>
          DrawOp.text (TextVal.lit (lines.getD l ""))
            (x + iconSize + 4) (y + 15 + 12 * (l : ℤ)) maxWidth 12)
    DrawOp.icon (getStateIconIndex st) x y :: nameOp :: descOps

/-- The argument list of the `drawState` calls issued by the loop of lines
505-514: for the `i`-th filtered state, the grid cell position and width
computed from the column count of line 498 and the column width of line 499
(`x = 8`; `y = 85 + 26` after the header; row height 60). -/
def stateDrawCalls (a : Actor) : List (Option StateData × ℤ × ℤ × ℤ) :=
  let states := filterStates (some a.states)
  let n := states.length
  let C : ℤ := if n > 9 then 4 else if n > 6 then 3 else 2
  let colWidth := (contentsWidth - 16) / C
  (List.range n).map (fun i =>
    (states.getD i none,
     8 + ((i : ℤ) % C) * colWidth,
     111 + ((i : ℤ) / C) * 60,
     colWidth - 8))

/-- `drawStatesSection` (lines 474-515): early return with no actor; a
"NO EFFECTS ACTIVE" banner when no state survives filtering; otherwise the
"STATES (n)" header followed by one `drawState` block per grid cell. -/
def drawStatesSection (measure : String → ℚ) : Option Actor → List DrawOp
  | none => []
  | some a =>
    let states := filterStates (some a.states)
    if states.length = 0 then
      [DrawOp.text (TextVal.lit "NO EFFECTS ACTIVE") 158 160 (contentsWidth - 16) 22]
    else
      DrawOp.text (TextVal.cat (TextVal.cat (TextVal.lit "STATES (")
          (TextVal.num (states.length : ℚ))) (TextVal.lit ")"))
        183 83 (contentsWidth - 16) 22 ::
      ((stateDrawCalls a).map (fun c =>
        drawState measure a c.1 c.2.1 c.2.2.1 c.2.2.2)).foldr (· ++ ·) []

/-- `refresh` (lines 307-315): early return with no actor, else clear the
contents and draw the three sections. -/
def refresh (measure : String → ℚ) : Option Actor → List DrawOp
  | none => []
  | some a =>
    DrawOp.clearAll ::
      (drawHeader (some a) ++ drawStatsSection (some a) ++
       drawStatesSection measure (some a))

/-- `getFilteredStateCount` (lines 227-230). -/
def getFilteredStateCount : Option Actor → ℕ
  | none => 0
  | some a => (filterStates (some a.states)).length

/-- The window state read by `refreshIfNeeded`: the bound actor and the
`_lastStateCount` cache (`0` at initialize, `-1` after `setActor`). -/
structure InfoWindow where
  actor : Option Actor
  lastStateCount : ℤ

/-- `refreshIfNeeded` (lines 296-302): redraw (and update the cache) exactly
when the current filtered state count differs from the cached one.  The
boolean records whether `refresh` was invoked. -/
def refreshIfNeeded (w : InfoWindow) : InfoWindow × Bool :=
  if (getFilteredStateCount w.actor : ℤ) ≠ w.lastStateCount then
    ({ actor := w.actor, lastStateCount := (getFilteredStateCount w.actor : ℤ) }, true)
  else (w, false)

/-- Modelled from the claim's words, for comparison with `stateKept`: keep a
list slot when it holds a state whose note does not contain a
`<HideInStatus>` tag, case-insensitively. -/
def specKept : Option StateData → Bool
  | none => false
  | some st => !(charsContain ("<hideinstatus>".toList) (toLowerList st.note.toList))

/-- The wrapping loop with its 3-line break equals the unbounded greedy wrap
truncated to its first three lines, for any starting accumulator that has not
reached three lines yet. -/
theorem wrapLoop_take_greedy (measure : String → ℚ) (maxWidth : ℚ) :
    ∀ (words : List String) (lines : List String) (cur : String),
      lines.length < 3 →
      wrapLoop measure maxWidth words lines cur =
        (lines ++ greedyWrap measure maxWidth words cur).take 3 := by
  intro words
  induction words with
  | nil =>
    intro lines cur hlen
    by_cases hcur : cur = ""
    · subst hcur
      simp only [wrapLoop, greedyWrap]
      simp [List.take_of_length_le hlen.le]
    · have h1 : (lines ++ [cur]).length ≤ 3 := by simp; omega
      simp only [wrapLoop, greedyWrap]
      simp [hcur, hlen, List.take_of_length_le h1]
  | cons w rest ih =>
    intro lines cur hlen
    by_cases hover : maxWidth < measure (cur ++ (if cur ≠ "" then " " else "") ++ w)
    · by_cases h3 : 3 ≤ (lines ++ [cur]).length
      · have hlen3 : (lines ++ [cur]).length = 3 := by simp at h3 ⊢; omega
        simp only [wrapLoop, greedyWrap, if_pos hover, if_pos h3]
        rw [show lines ++ cur :: greedyWrap measure maxWidth rest w =
              (lines ++ [cur]) ++ greedyWrap measure maxWidth rest w by simp]
        rw [List.take_append_of_le_length hlen3.ge, List.take_of_length_le hlen3.le]
      · simp only [wrapLoop, greedyWrap, if_pos hover, if_neg h3]
        rw [ih (lines ++ [cur]) w (not_le.mp h3)]
        congr 1
        simp
    · simp only [wrapLoop, greedyWrap, if_neg hover]
      exact ih lines _ hlen

/-- C6: the `lines` built by `drawState` for a description, for every measure
function, are exactly the greedy word wrap of the space-split words — each
word extends the current line when the extended line's measure does not
exceed the pixel width, and otherwise flushes it — truncated to at most three
lines; and at most three lines are ever produced (the drawing loop then draws
`min(lines.length, 3) = lines.length` of them). -/
theorem drawState_wrap_is_greedy (measure : String → ℚ) (maxWidth : ℚ)
    (description : String) :
    wrapDescription measure maxWidth description =
      (greedyWrap measure maxWidth (description.splitOn " ") "").take 3 ∧
    (wrapDescription measure maxWidth description).length ≤ 3 := by
  have h := wrapLoop_take_greedy measure maxWidth (description.splitOn " ") [] ""
    (by norm_num)
  have h' : wrapDescription measure maxWidth description =
      (greedyWrap measure maxWidth (description.splitOn " ") "").take 3 := by
    simpa [wrapDescription] using h
  exact ⟨h', h' ▸ List.length_take_le 3 _⟩

/-- C7: the `i`-th filtered state is drawn in column `i mod C` and row
`⌊i / C⌋` of the grid, with `C = 4` when more than nine states, `C = 3` when
more than six, else `C = 2`; its cell starts at `x = 8` plus the column times
`⌊(contentsWidth − 16) / C⌋` and `y = 111` plus the row times `60`. -/
theorem drawStatesSection_grid (a : Actor) (n : ℕ) (C : ℤ) (i : ℕ)
    (hn : n = (filterStates (some a.states)).length)
    (hC : C = if 9 < n then 4 else if 6 < n then 3 else 2)
    (hi : i < n) :
    (stateDrawCalls a).length = n ∧
    ∃ hlen : i < (stateDrawCalls a).length,
      (stateDrawCalls a).get ⟨i, hlen⟩ =
        ((filterStates (some a.states)).getD i none,
         8 + ((i : ℤ) % C) * ((contentsWidth - 16) / C),
         111 + ((i : ℤ) / C) * 60,
         (contentsWidth - 16) / C - 8) := by
  subst hn hC
  have hlen : (stateDrawCalls a).length = (filterStates (some a.states)).length := by
    simp [stateDrawCalls]
  refine ⟨hlen, by rw [hlen]; exact hi, ?_⟩
  simp [stateDrawCalls]

/-- C7 witness: an actor with one visible state; its single cell sits at
column 0, row 0 with `C = 2`. -/
theorem drawStatesSection_grid_witness :
    (stateDrawCalls ⟨"A", [], 0, 0, 0, 0, 0, 0, 0, fun _ => 0, fun _ => 0,
        fun _ => 0, fun _ => false, fun _ => none,
        [some ⟨"", "S", 0, 1, 0, 0, false, []⟩]⟩).length = 1 ∧
    ∃ hlen : 0 < (stateDrawCalls ⟨"A", [], 0, 0, 0, 0, 0, 0, 0, fun _ => 0,
        fun _ => 0, fun _ => 0, fun _ => false, fun _ => none,
        [some ⟨"", "S", 0, 1, 0, 0, false, []⟩]⟩).length,
      (stateDrawCalls ⟨"A", [], 0, 0, 0, 0, 0, 0, 0, fun _ => 0, fun _ => 0,
          fun _ => 0, fun _ => false, fun _ => none,
          [some ⟨"", "S", 0, 1, 0, 0, false, []⟩]⟩).get ⟨0, hlen⟩ =
        ((filterStates (some (Actor.mk "A" [] 0 0 0 0 0 0 0 (fun _ => 0)
            (fun _ => 0) (fun _ => 0) (fun _ => false) (fun _ => none)
            [some ⟨"", "S", 0, 1, 0, 0, false, []⟩]).states)).getD 0 none,
         8 + (((0 : ℕ) : ℤ) % 2) * ((contentsWidth - 16) / 2),
         111 + (((0 : ℕ) : ℤ) / 2) * 60,
         (contentsWidth - 16) / 2 - 8) :=
  drawStatesSection_grid ⟨"A", [], 0, 0, 0, 0, 0, 0, 0, fun _ => 0, fun _ => 0,
      fun _ => 0, fun _ => false, fun _ => none,
      [some ⟨"", "S", 0, 1, 0, 0, false, []⟩]⟩ 1 2 0
    (by decide) (by decide) (by decide)

/-- C8: every drawing routine of `Window_ActorInfo` degrades to a no-op on
absent data — `refresh`, `drawHeader`, `drawStatsSection` and
`drawStatesSection` issue no drawing operation without a bound actor,
`drawState` issues none for a null state, and `filterStates` of a null list
is empty.  Totality of the Lean functions reflects that no exception path
exists in these guards. -/
theorem absent_data_skips_drawing (measure : String → ℚ) :
    refresh measure none = [] ∧
    drawHeader none = [] ∧
    drawStatsSection none = [] ∧
    drawStatesSection measure none = [] ∧
    (∀ (a : Actor) (x y w : ℤ), drawState measure a none x y w = []) ∧
    filterStates none = [] :=
  ⟨rfl, rfl, rfl, rfl, fun _ _ _ _ => rfl, rfl⟩

/-- The source predicate of `filterStates` agrees with the claim's predicate
(the `state.note &&` guard only matters for an empty note, which contains no
tag anyway). -/
theorem stateKept_eq_specKept (s : Option StateData) : stateKept s = specKept s := by
  cases s with
  | none => rfl
  | some st =>
    simp only [stateKept, specKept, isStateHiddenInMenu]
    by_cases h : st.note = ""
    · rw [h]
      decide
    · have hb : (st.note != "") = true := by simp [h]
      rw [hb, Bool.true_and]

/-- C10: `filterStates` returns exactly the order-preserving sublist of the
non-null states whose note has no case-insensitive `<HideInStatus>` tag;
every returned slot occurs in the input; its length is what
`getFilteredStateCount` reports, and that count (compared with the cached
`_lastStateCount`) is exactly what makes `refreshIfNeeded` redraw. -/
theorem filterStates_characterization (l : List (Option StateData)) (a : Actor)
    (w : InfoWindow) :
    filterStates (some l) = l.filter specKept ∧
    List.Sublist (filterStates (some l)) l ∧
    (∀ s ∈ filterStates (some l), s ∈ l) ∧
    getFilteredStateCount (some a) = (filterStates (some a.states)).length ∧
    ((refreshIfNeeded w).2 = true ↔
      (getFilteredStateCount w.actor : ℤ) ≠ w.lastStateCount) := by
  have hfilter : filterStates (some l) = l.filter specKept := by
    simp only [filterStates]
    exact List.filter_congr (fun s _ => stateKept_eq_specKept s)
  refine ⟨hfilter, ?_, ?_, rfl, ?_⟩
  · simpa only [filterStates] using List.filter_sublist (l := l) (p := stateKept)
  · intro s hs
    exact List.mem_of_mem_filter (p := stateKept) (by simpa only [filterStates] using hs)
  · simp only [refreshIfNeeded]
    by_cases h : (getFilteredStateCount w.actor : ℤ) ≠ w.lastStateCount
    · simp [h]
    · simp [h]

end InBattleStatus
